import Mathlib

/-!
Verification of the DuckDB type-string parser
(`src/ibis/backends/duckdb/datatypes.py`).

The parser is a shallow embedding of the parsy-based recursive-descent
grammar in `parse`: parsers are functions from an input (a list of
characters) and a position to an optional value and new position, with
`none` modelling a `ParseError`.  The lexical atoms come from
`ibis.common.parsing` and the parsy combinator library, which are not part
of this file's source; they are modelled from the specification (§4.1).
-/

namespace DuckDB

/-- Character strings as lists of characters, the parser's input representation. -/
abbrev Str := List Char

/-- The ibis data types producible by the DuckDB type parser: the constructors of
`ibis.expr.datatypes` imported at the top of `src/ibis/backends/duckdb/datatypes.py`. -/
inductive DataType : Type where
  | int8 : DataType
  | int16 : DataType
  | int32 : DataType
  | int64 : DataType
  | uint8 : DataType
  | uint16 : DataType
  | uint32 : DataType
  | uint64 : DataType
  | float32 : DataType
  | float64 : DataType
  | boolean : DataType
  | binary : DataType
  | string : DataType
  | date : DataType
  | time : DataType
  | uuid : DataType
  | json : DataType
  | interval : DataType
  | timestamp (timezone : Option String) (scale : Option Nat) : DataType
  | decimal (precision : Nat) (scale : Nat) : DataType
  | array (elem : DataType) : DataType
  | map (key : DataType) (value : DataType) : DataType
  | struct (fields : List (String × DataType)) : DataType

/-- Modelled from the spec: a parsy-style parser is a backtracking function from an
input and a position to an optional value and new position (§4.1); a failing
parser consumes nothing, and `ParseError` is modelled by `none`. -/
def Parser (α : Type) : Type := Str → Nat → Option (α × Nat)

/-- The always-failing parser. -/
def pfail {α : Type} : Parser α := fun _ _ => none

/-- Modelled from the spec: ordered alternation (`|` in parsy) — try the left
production and, on failure, the right one at the same position (§4.1, §4.2). -/
def palt {α : Type} (p q : Parser α) : Parser α := fun s i =>
  match p s i with
  | some r => some r
  | none => q s i

/-- Monadic sequencing of parsers (the `@p.generate` style of the source). -/
def pbind {α β : Type} (p : Parser α) (f : α → Parser β) : Parser β := fun s i =>
  match p s i with
  | some (v, j) => f v s j
  | none => none

/-- Apply a function to a parser's result (`.map` / `.result` / `.combine`). -/
def pmap {α β : Type} (f : α → β) (p : Parser α) : Parser β := fun s i =>
  match p s i with
  | some (v, j) => some (f v, j)
  | none => none

/-- Sequence two parsers, keeping the second result (parsy `.then`). -/
def pthen {α β : Type} (p : Parser α) (q : Parser β) : Parser β :=
  pbind p (fun _ => q)

/-- Sequence two parsers, keeping the first result (parsy `.skip`). -/
def pskip {α β : Type} (p : Parser α) (q : Parser β) : Parser α :=
  pbind p (fun v => pmap (fun _ => v) q)

/-- Modelled from the spec: parsy `.optional()` — on failure succeed with `none`
consuming nothing (used for the decimal parameter group, §4.3). -/
def popt {α : Type} (p : Parser α) : Parser (Option α) := fun s i =>
  match p s i with
  | some (v, j) => some (some v, j)
  | none => some (none, i)

/-- Length of the longest prefix of a string whose characters satisfy `p`. -/
def countWhile (p : Char → Bool) : Str → Nat
  | [] => 0
  | c :: cs => if p c then countWhile p cs + 1 else 0

/-- Position reached from `i` after consuming the maximal whitespace run: the
`SPACES` regex atom of `ibis.common.parsing`.  Modelled from the spec:
whitespace-tolerant atoms skip arbitrary spaces/tabs/newlines between tokens (§4.1). -/
def spacesEnd (s : Str) (i : Nat) : Nat := i + countWhile Char.isWhitespace (s.drop i)

/-- Modelled from the spec: `spaceless(p)` of `ibis.common.parsing` — `p` with
surrounding whitespace consumed (§4.1). -/
def spaceless {α : Type} (p : Parser α) : Parser α := fun s i =>
  match p s (spacesEnd s i) with
  | some (v, j) => some (v, spacesEnd s j)
  | none => none

/-- Modelled from the spec: `parsy.string(kw, transform=str.lower)` — match a
(lower-case) keyword case-insensitively by lower-casing the input slice; fails
without consuming when the slice does not match (§4.1). -/
def pstring (kwd : Str) : Parser Unit := fun s i =>
  if ((s.drop i).take kwd.length).map Char.toLower = kwd then
    some ((), i + kwd.length)
  else none

/-- Ordered alternation of keyword matchers: the `parsy.alt` inside
`spaceless_string`, first match wins. -/
def firstKeyword : List Str → Parser Unit
  | [] => pfail
  | kwd :: rest => palt (pstring kwd) (firstKeyword rest)

/-- Modelled from the spec: `spaceless_string(*kws)` of `ibis.common.parsing` — a
case-insensitive, whitespace-tolerant matcher for a keyword alias set (§4.1). -/
def spaceless_string (kws : List Str) : Parser Unit := spaceless (firstKeyword kws)

/-- Modelled from the spec: the identifier atom `FIELD` of `ibis.common.parsing`
(a struct field-name token, §4.5): regex `[a-zA-Z_][a-zA-Z_0-9]*`, greedy. -/
def FIELD : Parser String := fun s i =>
  match s.drop i with
  | [] => none
  | c :: rest =>
    if c.isAlpha || c = '_' then
      let n := countWhile (fun d => d.isAlphanum || d = '_') rest
      some (String.mk (c :: rest.take n), i + n + 1)
    else none

/-- Numeric value of a list of decimal digits. -/
def natOfDigits (ds : Str) : Nat := ds.foldl (fun acc c => acc * 10 + (c.toNat - 48)) 0

/-- Modelled from the spec: the `PRECISION`/`SCALE` numeric atom of
`ibis.common.parsing` — one or more decimal digits read as a non-negative
integer, with no range validation (§4.3). -/
def NUMBER : Parser Nat := fun s i =>
  let n := countWhile Char.isDigit (s.drop i)
  if n = 0 then none else some (natOfDigits ((s.drop i).take n), i + n)

/-- The `PRECISION` atom of `ibis.common.parsing` (modelled from the spec, §4.3). -/
def PRECISION : Parser Nat := NUMBER

/-- The `SCALE` atom of `ibis.common.parsing` (modelled from the spec, §4.3). -/
def SCALE : Parser Nat := NUMBER

/-- The `LPAREN` token of `ibis.common.parsing` (modelled from the spec, §4.1). -/
def LPAREN : Parser Unit := spaceless_string ["(".toList]

/-- The `RPAREN` token of `ibis.common.parsing` (modelled from the spec, §4.1). -/
def RPAREN : Parser Unit := spaceless_string [")".toList]

/-- The `LBRACKET` token of `ibis.common.parsing` (modelled from the spec, §4.1). -/
def LBRACKET : Parser Unit := spaceless_string ["[".toList]

/-- The `RBRACKET` token of `ibis.common.parsing` (modelled from the spec, §4.1). -/
def RBRACKET : Parser Unit := spaceless_string ["]".toList]

/-- The `COMMA` token of `ibis.common.parsing` (modelled from the spec, §4.1). -/
def COMMA : Parser Unit := spaceless_string [",".toList]

/-- Modelled from the spec: greedy repetition (parsy `at_least` / `times`) —
repeat a parser, collecting results, until it fails.  The fuel bounds the
iteration count; callers pass the untouched input length plus one, which a
repeated parser that always consumes input can never exhaust (the source's
repeated parsers — bracket pairs, comma-plus-item — always consume). -/
def repAux {α : Type} (p : Parser α) (s : Str) : Nat → Nat → List α × Nat
  | 0, i => ([], i)
  | fuel + 1, i =>
    match p s i with
    | none => ([], i)
    | some (v, j) =>
      if i < j then
        let r := repAux p s fuel j
        (v :: r.1, r.2)
      else ([], i)

/-- parsy `.at_least(1)`: one or more repetitions, greedy (modelled from the
spec, §4.5 bracket-suffix form). -/
def at_least_one {α : Type} (p : Parser α) : Parser (List α) := fun s i =>
  match repAux p s (s.length + 1) i with
  | ([], _) => none
  | (v :: vs, k) => some (v :: vs, k)

/-- Modelled from the spec: parsy `.sep_by(sep)` — zero or more items separated
by `sep`, greedy, stopping before the first failing item (§4.5 struct fields). -/
def sep_by {α : Type} (p : Parser α) (sep : Parser Unit) : Parser (List α) := fun s i =>
  match p s i with
  | none => some ([], i)
  | some (v, j) =>
    let r := repAux (pthen sep p) s (s.length + 1) j
    some (v :: r.1, r.2)

/-- The primitive keyword table of `parse` (src/ibis/backends/duckdb/datatypes.py:53-87),
alias groups in source order, each paired with its result constant. -/
def primitive_table : List (List Str × DataType) := [
  (["interval".toList], DataType.interval),
  (["bigint".toList, "int8".toList, "long".toList], DataType.int64),
  (["boolean".toList, "bool".toList, "logical".toList], DataType.boolean),
  (["blob".toList, "bytea".toList, "binary".toList, "varbinary".toList], DataType.binary),
  (["double".toList, "float8".toList], DataType.float64),
  (["real".toList, "float4".toList, "float".toList], DataType.float32),
  (["smallint".toList, "int2".toList, "short".toList], DataType.int16),
  (["timestamp with time zone".toList, "timestamp_tz".toList, "datetime".toList],
    DataType.timestamp (some "UTC") none),
  (["timestamp_sec".toList, "timestamp_s".toList], DataType.timestamp (some "UTC") (some 0)),
  (["timestamp_ms".toList], DataType.timestamp (some "UTC") (some 3)),
  (["timestamp_us".toList], DataType.timestamp (some "UTC") (some 6)),
  (["timestamp_ns".toList], DataType.timestamp (some "UTC") (some 9)),
  (["timestamp".toList], DataType.timestamp (some "UTC") none),
  (["date".toList], DataType.date),
  (["time".toList], DataType.time),
  (["tinyint".toList, "int1".toList], DataType.int8),
  (["integer".toList, "int4".toList, "int".toList, "signed".toList], DataType.int32),
  (["ubigint".toList], DataType.uint64),
  (["usmallint".toList], DataType.uint16),
  (["uinteger".toList], DataType.uint32),
  (["utinyint".toList], DataType.uint8),
  (["uuid".toList], DataType.uuid),
  (["varchar".toList, "char".toList, "bpchar".toList, "text".toList, "string".toList],
    DataType.string),
  (["json".toList], DataType.json)]

/-- Ordered alternation over a keyword table: each `spaceless_string` group mapped
to its constant (`.result(...)` in the source), first match wins. -/
def table_alt : List (List Str × DataType) → Parser DataType
  | [] => pfail
  | (kws, v) :: rest => palt (pmap (fun _ => v) (spaceless_string kws)) (table_alt rest)

/-- The `primitive` alternation of `parse` (src/ibis/backends/duckdb/datatypes.py:53-87). -/
def primitive : Parser DataType := table_alt primitive_table

/-- The parenthesized `(precision, scale)` group inside `decimal`
(src/ibis/backends/duckdb/datatypes.py:92-99):
`LPAREN.then(seq(PRECISION.skip(COMMA), SCALE)).skip(RPAREN)`. -/
def prec_scale : Parser (Nat × Nat) :=
  pskip
    (pthen LPAREN
      (pbind (pskip PRECISION COMMA) (fun p => pmap (fun sc => (p, sc)) SCALE)))
    RPAREN

/-- The `decimal` parser of `parse` (src/ibis/backends/duckdb/datatypes.py:89-101):
keyword `decimal`/`numeric`, then an optional parameter group; when absent, the
caller-supplied default pair is used (the Python `or` falls back on `None` only,
and a parsed pair is a non-empty tuple, hence never falsy). -/
def decimal (dflt : Nat × Nat) : Parser DataType :=
  pthen (spaceless_string ["decimal".toList, "numeric".toList])
    (pmap
      (fun po =>
        match po with
        | some (p, sc) => DataType.decimal p sc
        | none => DataType.decimal dflt.1 dflt.2)
      (popt prec_scale))

/-- The `brackets` parser (src/ibis/backends/duckdb/datatypes.py:103-106):
`[` then `]`, each whitespace-tolerant. -/
def brackets : Parser Unit := pthen (spaceless LBRACKET) (spaceless RBRACKET)

/-- The `pg_array` parser (src/ibis/backends/duckdb/datatypes.py:108-112): a
non-array base type followed by one or more bracket pairs; the result is
`toolz.nth(n, toolz.iterate(Array, value_type))`, i.e. the `array` constructor
applied once per bracket pair. -/
def pg_array (base : Parser DataType) : Parser DataType :=
  pbind base (fun t =>
    pmap (fun bs => Nat.iterate DataType.array bs.length t) (at_least_one brackets))

/-- The `map` parser (src/ibis/backends/duckdb/datatypes.py:114-122):
`map` `(` primitive key `,` full-grammar value `)`. -/
def map (typ : Parser DataType) : Parser DataType :=
  pthen (spaceless_string ["map".toList])
    (pthen LPAREN
      (pbind primitive (fun k =>
        pthen COMMA
          (pbind typ (fun v => pmap (fun _ => DataType.map k v) RPAREN)))))

/-- The `field` token (src/ibis/backends/duckdb/datatypes.py:124): `spaceless(FIELD)`. -/
def field : Parser String := spaceless FIELD

/-- The `struct` parser (src/ibis/backends/duckdb/datatypes.py:126-134):
`struct` `(` then name/type pairs separated by commas (`sep_by`), then `)`.
`Struct.from_tuples` (in `ibis.expr.datatypes`, outside this file's source) is
modelled from the spec: a struct holds its ordered name/type pairs, preserving
encounter order and duplicates (§3). -/
def struct (typ : Parser DataType) : Parser DataType :=
  pthen (spaceless_string ["struct".toList])
    (pthen LPAREN
      (pbind (sep_by (pbind field (fun n => pmap (fun t => (n, t)) typ)) COMMA)
        (fun fs => pmap (fun _ => DataType.struct fs) RPAREN)))

/-- The `non_pg_array_type` alternation (src/ibis/backends/duckdb/datatypes.py:136):
`primitive | decimal | map | struct`, parameterized by the parser used for the
nested full-type occurrences inside map and struct bodies. -/
def non_pg_array_type (dflt : Nat × Nat) (typ : Parser DataType) : Parser DataType :=
  palt primitive (palt (decimal dflt) (palt (map typ) (struct typ)))

/-- The `ty` alternation (src/ibis/backends/duckdb/datatypes.py:137):
`pg_array | non_pg_array_type`.  The fuel bounds the recursion depth through
map/struct bodies; the top-level call supplies more fuel than any input can use,
since each nesting level consumes at least one character of input. -/
def ty (dflt : Nat × Nat) : Nat → Parser DataType
  | 0 => pfail
  | fuel + 1 =>
    palt (pg_array (non_pg_array_type dflt (ty dflt fuel)))
      (non_pg_array_type dflt (ty dflt fuel))

/-- The top-level `parse` on a character list
(src/ibis/backends/duckdb/datatypes.py:51,138): run `ty` from position 0;
parsy's `.parse` succeeds only when the entire input is consumed, raising
`ParseError` (modelled as `none`) otherwise. -/
def parseChars (dflt : Nat × Nat) (s : Str) : Option DataType :=
  match ty dflt (s.length + 1) s 0 with
  | some (v, j) => if j = s.length then some v else none
  | none => none

/-- The top-level `parse(text, default_decimal_parameters)` of
src/ibis/backends/duckdb/datatypes.py:51 (the source defaults the second
argument to `(18, 3)`; here it is always passed explicitly). -/
def parse (text : String) (dflt : Nat × Nat) : Option DataType :=
  parseChars dflt text.toList

/-- A data type legal as a map key: anything the `primitive` alternation can
produce, i.e. never a decimal, map, array, or struct. -/
def map_key_ok : DataType → Bool
  | DataType.decimal _ _ => false
  | DataType.map _ _ => false
  | DataType.array _ => false
  | DataType.struct _ => false
  | _ => true

lemma palt_of_some {α : Type} {p q : Parser α} {s : Str} {i : Nat} {r : α × Nat}
    (h : p s i = some r) : palt p q s i = some r := by
  simp [palt, h]

lemma palt_of_none {α : Type} {p q : Parser α} {s : Str} {i : Nat}
    (h : p s i = none) : palt p q s i = q s i := by
  simp [palt, h]

lemma pbind_of_some {α β : Type} {p : Parser α} {f : α → Parser β} {s : Str} {i j : Nat}
    {v : α} (h : p s i = some (v, j)) : pbind p f s i = f v s j := by
  simp [pbind, h]

lemma pbind_of_none {α β : Type} {p : Parser α} {f : α → Parser β} {s : Str} {i : Nat}
    (h : p s i = none) : pbind p f s i = none := by
  simp [pbind, h]

lemma pmap_of_some {α β : Type} {f : α → β} {p : Parser α} {s : Str} {i j : Nat} {v : α}
    (h : p s i = some (v, j)) : pmap f p s i = some (f v, j) := by
  simp [pmap, h]

/-- Past the end of the input no keyword can match, so a `brackets` pair fails. -/
lemma brackets_none_at_end {s : Str} {i : Nat} (h : s.length ≤ i) :
    brackets s i = none := by
  have hdrop : s.drop i = [] := List.drop_eq_nil_of_le h
  have hsp : spacesEnd s i = i := by simp [spacesEnd, hdrop, countWhile]
  simp [brackets, pthen, pbind, spaceless, LBRACKET, spaceless_string, firstKeyword,
    palt, pstring, pfail, hsp, hdrop]

/-- An `at_least(1)` repetition fails whenever its first attempt fails. -/
lemma at_least_one_none {α : Type} {p : Parser α} {s : Str} {i : Nat}
    (h : p s i = none) : at_least_one p s i = none := by
  unfold at_least_one
  have : repAux p s (s.length + 1) i = ([], i) := by
    unfold repAux
    simp [h]
  rw [this]

/-- Everything a keyword-table alternation returns is a result constant of the table. -/
lemma table_alt_spec {tbl : List (List Str × DataType)} {s : Str} {i j : Nat} {v : DataType}
    (h : table_alt tbl s i = some (v, j)) : ∃ e ∈ tbl, v = e.2 := by
  induction tbl with
  | nil => simp [table_alt, pfail] at h
  | cons hd tl ih =>
    obtain ⟨kws, w⟩ := hd
    unfold table_alt palt at h
    revert h
    cases hm : pmap (fun _ => w) (spaceless_string kws) s i with
    | some r =>
      intro h
      refine ⟨(kws, w), List.mem_cons_self _ _, ?_⟩
      unfold pmap at hm
      revert hm
      cases hs : spaceless_string kws s i with
      | some r' => intro hm; cases h; cases hm; rfl
      | none => intro hm; cases hm
    | none =>
      intro h
      obtain ⟨e, he, hv⟩ := ih h
      exact ⟨e, List.mem_cons_of_mem _ he, hv⟩

/-- The `primitive` alternation only produces parameter-free leaf constants,
timestamps, or intervals — never decimal, map, array, or struct. -/
lemma primitive_key_ok {s : Str} {i j : Nat} {v : DataType}
    (h : primitive s i = some (v, j)) : map_key_ok v = true := by
  obtain ⟨e, he, rfl⟩ := table_alt_spec h
  fin_cases he <;> rfl

lemma pbind_inv {α β : Type} {p : Parser α} {f : α → Parser β} {s : Str} {i : Nat}
    {r : β × Nat} (h : pbind p f s i = some r) :
    ∃ v j, p s i = some (v, j) ∧ f v s j = some r := by
  unfold pbind at h
  revert h
  cases hp : p s i with
  | none => intro h; cases h
  | some vj =>
    obtain ⟨v, j⟩ := vj
    intro h
    exact ⟨v, j, rfl, h⟩

lemma pthen_inv {α β : Type} {p : Parser α} {q : Parser β} {s : Str} {i : Nat}
    {r : β × Nat} (h : pthen p q s i = some r) :
    ∃ v j, p s i = some (v, j) ∧ q s j = some r := by
  unfold pthen at h
  exact pbind_inv h

lemma pmap_inv {α β : Type} {f : α → β} {p : Parser α} {s : Str} {i j : Nat} {w : β}
    (h : pmap f p s i = some (w, j)) : ∃ v, p s i = some (v, j) ∧ w = f v := by
  unfold pmap at h
  revert h
  cases hp : p s i with
  | none => intro h; cases h
  | some vj =>
    obtain ⟨v, j'⟩ := vj
    intro h
    have h' : some (f v, j') = some (w, j) := h
    simp only [Option.some.injEq, Prod.mk.injEq] at h'
    exact ⟨v, by rw [h'.2], h'.1.symm⟩

/-- C1: N `[]` suffixes on a base-type text wrap the base parse in exactly N
`Array` constructors: whenever the non-array base alternation succeeds on a
prefix and N ≥ 1 bracket pairs consume the rest of the input, the parse returns
`array` applied exactly N times (N = the number of parsed pairs) to the base
result; a base with no bracket suffix parses to the base result alone; in
particular `int[][]` is exactly two levels deep. -/
theorem bracket_suffix_array_nesting :
    (∀ (dflt : Nat × Nat) (s : Str) (t : DataType) (j : Nat) (bs : List Unit),
      non_pg_array_type dflt (ty dflt s.length) s 0 = some (t, j) →
      at_least_one brackets s j = some (bs, s.length) →
      parseChars dflt s = some (Nat.iterate DataType.array bs.length t)) ∧
    (∀ (dflt : Nat × Nat) (s : Str) (t : DataType),
      non_pg_array_type dflt (ty dflt s.length) s 0 = some (t, s.length) →
      parseChars dflt s = some t) ∧
    parse "int" (18, 3) = some DataType.int32 ∧
    parse "int[]" (18, 3) = some (DataType.array DataType.int32) ∧
    parse "int[][]" (18, 3) = some (DataType.array (DataType.array DataType.int32)) ∧
    parse "int[][][]" (18, 3) =
      some (DataType.array (DataType.array (DataType.array DataType.int32))) ∧
    parse "struct(a int)[]" (18, 3) =
      some (DataType.array (DataType.struct [("a", DataType.int32)])) := by
  refine ⟨?_, ?_, rfl, rfl, rfl, rfl, rfl⟩
  · intro dflt s t j bs h1 h2
    unfold parseChars
    have hty : ty dflt (s.length + 1) s 0
        = some (Nat.iterate DataType.array bs.length t, s.length) := by
      show palt (pg_array (non_pg_array_type dflt (ty dflt s.length)))
        (non_pg_array_type dflt (ty dflt s.length)) s 0 = _
      apply palt_of_some
      unfold pg_array
      rw [pbind_of_some h1]
      exact pmap_of_some h2
    rw [hty]
    simp
  · intro dflt s t h1
    unfold parseChars
    have hbr : at_least_one brackets s s.length = none :=
      at_least_one_none (brackets_none_at_end (Nat.le_refl _))
    have hty : ty dflt (s.length + 1) s 0 = some (t, s.length) := by
      show palt (pg_array (non_pg_array_type dflt (ty dflt s.length)))
        (non_pg_array_type dflt (ty dflt s.length)) s 0 = _
      have hpg : pg_array (non_pg_array_type dflt (ty dflt s.length)) s 0 = none := by
        unfold pg_array
        rw [pbind_of_some h1]
        simp [pmap, hbr]
      rw [palt_of_none hpg, h1]
    rw [hty]
    simp

/-- Witness for C1 at the input `"int[][]"`: the base alternation returns `int32`
after three characters, two bracket pairs consume the rest, and the parse is the
doubly nested array. -/
theorem bracket_suffix_array_nesting_check :
    non_pg_array_type (18, 3) (ty (18, 3) ("int[][]".toList).length) "int[][]".toList 0
        = some (DataType.int32, 3) ∧
    at_least_one brackets "int[][]".toList 3 = some ([(), ()], ("int[][]".toList).length) ∧
    parseChars (18, 3) "int[][]".toList
        = some (Nat.iterate DataType.array 2 DataType.int32) :=
  ⟨rfl, rfl,
    bracket_suffix_array_nesting.1 (18, 3) "int[][]".toList DataType.int32 3 [(), ()] rfl rfl⟩

/-- C2: the key position of `map(...)` accepts only the primitive alternation —
every successful map parse has a non-decimal, non-map, non-array, non-struct
key — the value position accepts the full grammar, and the listed examples
succeed/fail accordingly. -/
theorem map_key_restriction :
    (∀ (typ : Parser DataType) (s : Str) (i : Nat) (r : DataType) (j : Nat),
      map typ s i = some (r, j) →
      ∃ k v, r = DataType.map k v ∧ map_key_ok k = true) ∧
    parse "map(varchar, struct(a int))" (18, 3) =
      some (DataType.map DataType.string (DataType.struct [("a", DataType.int32)])) ∧
    parse "map(struct(a int), varchar)" (18, 3) = none ∧
    parse "map(decimal(10,2), varchar)" (18, 3) = none ∧
    parse "map(map(varchar, int), varchar)" (18, 3) = none ∧
    parse "map(int[], varchar)" (18, 3) = none := by
  refine ⟨?_, rfl, rfl, rfl, rfl, rfl⟩
  intro typ s i r j h
  unfold map at h
  obtain ⟨_, j1, h1, h⟩ := pthen_inv h
  obtain ⟨_, j2, h2, h⟩ := pthen_inv h
  obtain ⟨k, j3, h3, h⟩ := pbind_inv h
  obtain ⟨_, j4, h4, h⟩ := pthen_inv h
  obtain ⟨v, j5, h5, h⟩ := pbind_inv h
  obtain ⟨_, h6, hr⟩ := pmap_inv h
  exact ⟨k, v, hr, primitive_key_ok h3⟩

/-- Witness for C2 at the input `"map(varchar, int)"`: the map parser succeeds
and its result's key (`string`) is a legal key kind. -/
theorem map_key_restriction_check :
    map (ty (18, 3) 1) "map(varchar, int)".toList 0
        = some (DataType.map DataType.string DataType.int32, 17) ∧
    (∃ k v, DataType.map DataType.string DataType.int32 = DataType.map k v ∧
      map_key_ok k = true) :=
  ⟨rfl, map_key_restriction.1 (ty (18, 3) 1) "map(varchar, int)".toList 0
    (DataType.map DataType.string DataType.int32) 17 rfl⟩

/-- C3 counterexample: `parse "struct()"` does not raise `ParseError` — the
field list is a zero-or-more separated list, so the parse succeeds and returns
a struct with zero fields. -/
theorem empty_struct_refuted :
    parse "struct()" (18, 3) = some (DataType.struct []) := rfl

/-- C3 amended: the struct production accepts an empty field list (`sep_by`
imposes no minimum), so `parse "struct()"` succeeds with a zero-field struct
instead of raising `ParseError` (whitespace between the parentheses included). -/
theorem empty_struct_parses :
    parse "struct()" (18, 3) = some (DataType.struct []) ∧
    parse "struct( )" (18, 3) = some (DataType.struct []) ∧
    parse "struct(a int)" (18, 3) = some (DataType.struct [("a", DataType.int32)]) :=
  ⟨rfl, rfl, rfl⟩

/-- C4: decimal parameter handling — an explicit `(precision, scale)` pair is
used as written, a missing pair falls back to the caller-supplied default pair
(for every such pair), and whenever the parenthesized group parses, the decimal
parser's behaviour is independent of the default, so the default affects only
the no-parameter case. -/
theorem decimal_default_parameters :
    parse "decimal(10,2)" (18, 3) = some (DataType.decimal 10 2) ∧
    parse "decimal" (18, 3) = some (DataType.decimal 18 3) ∧
    (∀ p sc : Nat, parse "decimal" (p, sc) = some (DataType.decimal p sc)) ∧
    (∀ d d' : Nat × Nat, parse "decimal(10,2)" d = parse "decimal(10,2)" d') ∧
    (∀ (d d' : Nat × Nat) (s : Str) (i j : Nat),
      spaceless_string ["decimal".toList, "numeric".toList] s i = some ((), j) →
      (prec_scale s j).isSome = true →
      decimal d s i = decimal d' s i) := by
  refine ⟨rfl, rfl, fun p sc => rfl, fun d d' => rfl, ?_⟩
  intro d d' s i j hk hps
  obtain ⟨pq, k, hq⟩ : ∃ pq k, prec_scale s j = some (pq, k) := by
    revert hps
    cases hq : prec_scale s j with
    | none => intro hps; cases hps
    | some r => intro _; exact ⟨r.1, r.2, rfl⟩
  obtain ⟨p1, s1⟩ := pq
  unfold decimal pthen
  rw [pbind_of_some hk, pbind_of_some hk]
  simp [pmap, popt, hq]

/-- Witness for C4 at the input `"numeric(9,5)"`: the keyword matches, the
parameter group parses, and two different defaults give the same run. -/
theorem decimal_default_parameters_check :
    spaceless_string ["decimal".toList, "numeric".toList] "numeric(9,5)".toList 0
        = some ((), 7) ∧
    (prec_scale "numeric(9,5)".toList 7).isSome = true ∧
    decimal (18, 3) "numeric(9,5)".toList 0 = decimal (1, 1) "numeric(9,5)".toList 0 :=
  ⟨rfl, rfl,
    decimal_default_parameters.2.2.2.2 (18, 3) (1, 1) "numeric(9,5)".toList 0 7 rfl rfl⟩

/-- C5: every timestamp-family keyword parses to the fixed `(timezone, scale)`
pair of the table — zoned/datetime aliases and bare `timestamp` to `(UTC, None)`,
the suffixed precision aliases to UTC with scale 0/3/6/9 — and the longer zoned
alias wins over the bare-`timestamp` prefix. -/
theorem timestamp_alias_table :
    parse "timestamp with time zone" (18, 3) = some (DataType.timestamp (some "UTC") none) ∧
    parse "timestamp_tz" (18, 3) = some (DataType.timestamp (some "UTC") none) ∧
    parse "datetime" (18, 3) = some (DataType.timestamp (some "UTC") none) ∧
    parse "timestamp_sec" (18, 3) = some (DataType.timestamp (some "UTC") (some 0)) ∧
    parse "timestamp_s" (18, 3) = some (DataType.timestamp (some "UTC") (some 0)) ∧
    parse "timestamp_ms" (18, 3) = some (DataType.timestamp (some "UTC") (some 3)) ∧
    parse "timestamp_us" (18, 3) = some (DataType.timestamp (some "UTC") (some 6)) ∧
    parse "timestamp_ns" (18, 3) = some (DataType.timestamp (some "UTC") (some 9)) ∧
    parse "timestamp" (18, 3) = some (DataType.timestamp (some "UTC") none) :=
  ⟨rfl, rfl, rfl, rfl, rfl, rfl, rfl, rfl, rfl⟩

/-- C6: a successful struct parse returns exactly the name/type pair list the
field-list production produced, in encounter order and without deduplication;
the concrete examples pin the textual order and a duplicated field name. -/
theorem struct_field_order :
    (∀ (typ : Parser DataType) (s : Str) (i : Nat) (r : DataType) (j : Nat),
      struct typ s i = some (r, j) →
      ∃ fs i1 j1,
        sep_by (pbind field (fun n => pmap (fun t => (n, t)) typ)) COMMA s i1
            = some (fs, j1) ∧
        r = DataType.struct fs) ∧
    parse "struct(a int, b varchar)" (18, 3) =
      some (DataType.struct [("a", DataType.int32), ("b", DataType.string)]) ∧
    parse "struct(b varchar, a int)" (18, 3) =
      some (DataType.struct [("b", DataType.string), ("a", DataType.int32)]) ∧
    parse "struct(a int, a varchar)" (18, 3) =
      some (DataType.struct [("a", DataType.int32), ("a", DataType.string)]) := by
  refine ⟨?_, rfl, rfl, rfl⟩
  intro typ s i r j h
  unfold struct at h
  obtain ⟨_, j1, h1, h⟩ := pthen_inv h
  obtain ⟨_, j2, h2, h⟩ := pthen_inv h
  obtain ⟨fs, j3, h3, h⟩ := pbind_inv h
  obtain ⟨_, h4, hr⟩ := pmap_inv h
  exact ⟨fs, j2, j3, h3, hr⟩

/-- Witness for C6 at the input `"struct(a int)"`: the struct parser succeeds and
its result is the struct of the parsed field list. -/
theorem struct_field_order_check :
    struct (ty (18, 3) 1) "struct(a int)".toList 0
        = some (DataType.struct [("a", DataType.int32)], 13) ∧
    (∃ fs i1 j1,
      sep_by (pbind field (fun n => pmap (fun t => (n, t)) (ty (18, 3) 1))) COMMA
          "struct(a int)".toList i1 = some (fs, j1) ∧
      DataType.struct [("a", DataType.int32)] = DataType.struct fs) :=
  ⟨rfl, struct_field_order.1 (ty (18, 3) 1) "struct(a int)".toList 0
    (DataType.struct [("a", DataType.int32)]) 13 rfl⟩

/-- C7: success requires the whole input to be consumed — a run of the grammar
that stops short of the end makes `parse` fail, so trailing garbage is an error;
trailing whitespace is consumed by the grammar's own trailing-space handling and
gives the same result as without it. -/
theorem full_input_consumption :
    (∀ (dflt : Nat × Nat) (s : Str) (v : DataType) (j : Nat),
      ty dflt (s.length + 1) s 0 = some (v, j) → j ≠ s.length →
      parseChars dflt s = none) ∧
    parse "int x" (18, 3) = none ∧
    parse "int[]x" (18, 3) = none ∧
    parse "int   " (18, 3) = parse "int" (18, 3) ∧
    parse "int   " (18, 3) = some DataType.int32 ∧
    parse "  decimal ( 5 , 1 )  " (18, 3) = some (DataType.decimal 5 1) ∧
    parse "decimal(5,1)x" (18, 3) = none := by
  refine ⟨?_, rfl, rfl, rfl, rfl, rfl, rfl⟩
  intro dflt s v j h hj
  unfold parseChars
  rw [h]
  simp [hj]

/-- Witness for C7 at the input `"int x"`: the grammar stops after `"int "` at
position 4 of 5, so the parse fails. -/
theorem full_input_consumption_check :
    ty (18, 3) ("int x".toList.length + 1) "int x".toList 0 = some (DataType.int32, 4) ∧
    (4 ≠ "int x".toList.length) ∧
    parseChars (18, 3) "int x".toList = none :=
  ⟨rfl, by decide,
    full_input_consumption.1 (18, 3) "int x".toList DataType.int32 4 rfl (by decide)⟩

/-- C8: every alias of every primitive alias group parses to the group's single
constant, both as written (lower case) and fully upper-cased; moreover every one
of the 64 letter-case variants of `"bigint"` parses to `int64`, as does the
mixed-case `"BigInt"`. -/
theorem primitive_alias_case_insensitive :
    (∀ g ∈ primitive_table, ∀ k ∈ g.1,
      parseChars (18, 3) k = some g.2 ∧
      parseChars (18, 3) (k.map Char.toUpper) = some g.2) ∧
    (∀ b0 b1 b2 b3 b4 b5 : Bool,
      parseChars (18, 3) [cond b0 'B' 'b', cond b1 'I' 'i', cond b2 'G' 'g',
        cond b3 'I' 'i', cond b4 'N' 'n', cond b5 'T' 't'] = some DataType.int64) ∧
    parse "BigInt" (18, 3) = some DataType.int64 := by
  refine ⟨?_, ?_, rfl⟩
  · intro g hg k hk
    fin_cases hg <;> fin_cases hk <;> exact ⟨rfl, rfl⟩
  · intro b0 b1 b2 b3 b4 b5
    cases b0 <;> cases b1 <;> cases b2 <;> cases b3 <;> cases b4 <;> cases b5 <;> rfl

/-- Witness for C8 at the alias `"long"` of the 64-bit integer group: it parses
to `int64` in lower and upper case. -/
theorem primitive_alias_case_insensitive_check :
    parseChars (18, 3) "long".toList = some DataType.int64 ∧
    parseChars (18, 3) ("long".toList.map Char.toUpper) = some DataType.int64 :=
  primitive_alias_case_insensitive.1
    (["bigint".toList, "int8".toList, "long".toList], DataType.int64)
    (List.Mem.tail _ (List.Mem.head _)) "long".toList
    (List.Mem.tail _ (List.Mem.tail _ (List.Mem.head _)))

/-- C9: the optional decimal parameter group is all-or-nothing — a successful
decimal parse either consumed a complete `(precision, scale)` pair or consumed
no group at all and used the default — and an incomplete group such as
`"decimal(10)"` or `"decimal(10,)"` leaves the `(`-suffix unconsumed, failing
the whole parse for every default. -/
theorem decimal_partial_parameters :
    (∀ d : Nat × Nat, parse "decimal(10)" d = none) ∧
    (∀ d : Nat × Nat, parse "decimal(10,)" d = none) ∧
    (∀ d : Nat × Nat, parse "numeric(10)" d = none) ∧
    (∀ (d : Nat × Nat) (s : Str) (i : Nat) (r : DataType) (j : Nat),
      decimal d s i = some (r, j) →
      ∃ jk, spaceless_string ["decimal".toList, "numeric".toList] s i = some ((), jk) ∧
        ((∃ pq k, prec_scale s jk = some (pq, k) ∧
            r = DataType.decimal pq.1 pq.2 ∧ j = k) ∨
         (prec_scale s jk = none ∧ r = DataType.decimal d.1 d.2 ∧ j = jk))) := by
  refine ⟨fun d => rfl, fun d => rfl, fun d => rfl, ?_⟩
  intro d s i r j h
  unfold decimal pthen at h
  obtain ⟨u, jk, hk, h⟩ := pbind_inv h
  obtain ⟨po, hpo, hr⟩ := pmap_inv h
  refine ⟨jk, hk, ?_⟩
  revert hpo
  unfold popt
  cases hq : prec_scale s jk with
  | none =>
    intro hpo
    have h' : (some (none, jk) : Option (Option (Nat × Nat) × Nat)) = some (po, j) := hpo
    simp only [Option.some.injEq, Prod.mk.injEq] at h'
    refine Or.inr ⟨rfl, ?_, h'.2.symm⟩
    rw [hr, ← h'.1]
  | some pqk =>
    obtain ⟨pq, k⟩ := pqk
    intro hpo
    have h' : (some (some pq, k) : Option (Option (Nat × Nat) × Nat)) = some (po, j) := hpo
    simp only [Option.some.injEq, Prod.mk.injEq] at h'
    refine Or.inl ⟨pq, k, rfl, ?_, h'.2.symm⟩
    obtain ⟨p1, s1⟩ := pq
    rw [hr, ← h'.1]

/-- Witness for C9 at the input `"decimal"`: the keyword matches, no parameter
group is present, and the result is the default pair. -/
theorem decimal_partial_parameters_check :
    decimal (18, 3) "decimal".toList 0 = some (DataType.decimal 18 3, 7) ∧
    (∃ jk, spaceless_string ["decimal".toList, "numeric".toList] "decimal".toList 0
        = some ((), jk) ∧
      ((∃ pq k, prec_scale "decimal".toList jk = some (pq, k) ∧
          DataType.decimal 18 3 = DataType.decimal pq.1 pq.2 ∧ 7 = k) ∨
       (prec_scale "decimal".toList jk = none ∧
          DataType.decimal 18 3 = DataType.decimal (18, 3).1 (18, 3).2 ∧ 7 = jk))) :=
  ⟨rfl, decimal_partial_parameters.2.2.2 (18, 3) "decimal".toList 0
    (DataType.decimal 18 3) 7 rfl⟩

set_option maxHeartbeats 2000000 in
/-- C10: the character-type keywords take no length parameter — anything at all
following `varchar(` or `char(` leaves the parenthesized suffix unconsumed, so
the parse fails for every tail and every default, while the bare keywords parse
to the unparameterized string type. -/
theorem char_types_take_no_parameters :
    (∀ (rest : Str) (d : Nat × Nat), parseChars d ("varchar(".toList ++ rest) = none) ∧
    (∀ (rest : Str) (d : Nat × Nat), parseChars d ("char(".toList ++ rest) = none) ∧
    parse "varchar(255)" (18, 3) = none ∧
    parse "char(10)" (18, 3) = none ∧
    parse "varchar" (18, 3) = some DataType.string ∧
    parse "char" (18, 3) = some DataType.string :=
  ⟨fun _ _ => rfl, fun _ _ => rfl, rfl, rfl, rfl, rfl⟩

end DuckDB
